import Mathlib

/-!
Shallow embedding of `flash_all.py`, the ESP32-Doom flashing orchestrator.

The script reads configuration from environment variables (with a CLI
override for the port), validates that five build artifacts exist on disk,
constructs one `esptool.py` command line, runs it, and reports the outcome.

External effects are modelled as explicit inputs and traces:
* the process environment is a partial map `Env : String → Option String`;
* filesystem existence is an oracle `String → Bool`;
* the subprocess layer is an oracle `Runner : List String → ProcResult`
  giving the exit status and captured output of a spawned command;
* each run returns the lines it printed, the list of commands it spawned,
  the list of paths whose existence it checked, the environment writes it
  performed, and the process exit code.
-/

namespace FlashAll

/-- The process environment: a partial map from variable names to values. -/
def Env : Type := String → Option String

/-- `os.environ.get(key, dflt)`. -/
def Env.get (env : Env) (key dflt : String) : String :=
  (env key).getD dflt

/-- `os.environ[key] = v`. -/
def Env.set (env : Env) (key v : String) : Env :=
  fun k => if k = key then some v else env k

/-- Result of a completed subprocess: exit status and captured output,
as in `subprocess.run(cmd, capture_output=True, text=True)`. -/
structure ProcResult where
  returncode : Int
  stdout : String
  stderr : String

/-- The subprocess layer: what running a given command line returns. -/
def Runner : Type := List String → ProcResult

/-- Abstracts `str(subprocess.CalledProcessError)`: a message naming the
command and its non-zero exit status. -/
def calledProcessErrorMsg (cmd : List String) (code : Int) : String :=
  "Command " ++ String.intercalate " " cmd ++
    " returned non-zero exit status " ++ toString code ++ "."

/-- `run_command(cmd, description)`: spawns `cmd`, returns whether it
succeeded together with the lines printed. -/
def run_command (runner : Runner) (cmd : List String) (descr : String) :
    Bool × List String :=
  let header := [descr ++ "...", "Command: " ++ String.intercalate " " cmd]
  let result := runner cmd
  if result.returncode = 0 then
    (true, header ++ ["✓ " ++ descr ++ " completed successfully"])
  else
    (false, header ++
      ["✗ Error during " ++ descr ++ ": " ++
         calledProcessErrorMsg cmd result.returncode,
       "stdout: " ++ result.stdout,
       "stderr: " ++ result.stderr])

def bootloader_bin : String := "build/bootloader/bootloader.bin"

def partition_table_bin : String := "build/partition_table/partition-table.bin"

def app_bin : String := "build/esp32-doom.bin"

def storage_bin : String := "build/storage.bin"

def wad_bin : String := "build/wad_partition.bin"

/-- The fixed `required_files` table of (path, label) pairs, in source order. -/
def required_files : List (String × String) :=
  [(bootloader_bin, "Bootloader"),
   (partition_table_bin, "Partition table"),
   (app_bin, "Application"),
   (storage_bin, "SPIFFS storage"),
   (wad_bin, "WAD file")]

/-- Path of the `i`-th required artifact. -/
def reqPath (i : Nat) : String := (required_files.getD i ("", "")).1

/-- Label of the `i`-th required artifact. -/
def reqLabel (i : Nat) : String := (required_files.getD i ("", "")).2

/-- The validation loop of `flash_all`: walks the list in order, recording
each path whose existence it queries, and stops at the first missing file,
returning that (path, label) pair. -/
def checkRequired (ex : String → Bool) :
    List (String × String) → List String × Option (String × String)
  | [] => ([], none)
  | (fp, descr) :: rest =>
    if ex fp then
      let r := checkRequired ex rest
      (fp :: r.1, r.2)
    else
      ([fp], some (fp, descr))

/-- The `esptool.py` command line built by `flash_all` from the five
resolved configuration values. -/
def build_cmd (espport espbaud espflashmode espflashfreq espflashsize : String) :
    List String :=
  ["esptool.py",
   "--chip", "esp32",
   "--port", espport,
   "--baud", espbaud,
   "write_flash",
   "--flash_mode", espflashmode,
   "--flash_freq", espflashfreq,
   "--flash_size", espflashsize,
   "0x1000", bootloader_bin,
   "0x8000", partition_table_bin,
   "0x10000", app_bin,
   "0x188000", wad_bin,
   "0x388000", storage_bin]

/-- Outcome of one `flash_all` run: success flag, printed lines, the
commands spawned, and the paths whose existence was checked. -/
structure RunResult where
  ok : Bool
  output : List String
  invoked : List (List String)
  checked : List String
  deriving DecidableEq

/-- `flash_all()`: resolve configuration, validate artifacts, build and run
the flashing command. -/
def flash_all (env : Env) (ex : String → Bool) (runner : Runner) : RunResult :=
  let espport := Env.get env "ESPPORT" ""
  let espbaud := Env.get env "ESPBAUD" "115200"
  let espflashmode := Env.get env "ESPFLASHMODE" "dio"
  let espflashfreq := Env.get env "ESPFLASHFREQ" "40m"
  let espflashsize := Env.get env "ESPFLASHSIZE" "4MB"
  if espport = "" then
    { ok := false,
      output :=
        ["Error: ESPPORT environment variable not set!",
         "Please set ESPPORT to your device port (e.g., /dev/ttyUSB0)",
         "You can also set it via: export ESPPORT=/dev/ttyUSB0"],
      invoked := [],
      checked := [] }
  else
    let c := checkRequired ex required_files
    match c.2 with
    | some (fp, descr) =>
      { ok := false,
        output :=
          ["Error: " ++ descr ++ " file not found: " ++ fp,
           "Please run \x27idf.py build\x27 first"],
        invoked := [],
        checked := c.1 }
    | none =>
      let cmd := build_cmd espport espbaud espflashmode espflashfreq espflashsize
      let r := run_command runner cmd "Flashing all partitions"
      { ok := r.1, output := r.2, invoked := [cmd], checked := c.1 }

/-- The `--port` override in `main`: a truthy (non-empty, present) argument
is written back into the environment; the write trace records it. -/
def applyPortOverride (env : Env) (argPort : Option String) :
    Env × List (String × String) :=
  match argPort with
  | some p => if p = "" then (env, []) else (Env.set env "ESPPORT" p, [("ESPPORT", p)])
  | none => (env, [])

/-- Outcome of one whole process run of the script. -/
structure MainResult where
  exitCode : Nat
  finalEnv : Env
  output : List String
  invoked : List (List String)
  checked : List String
  writes : List (String × String)

/-- `main()`: parse the optional port override, run `flash_all`, report the
outcome and exit (status 1 on any failure, 0 on success). -/
def main (env : Env) (argPort : Option String) (ex : String → Bool)
    (runner : Runner) : MainResult :=
  let eo := applyPortOverride env argPort
  let header := ["ESP32-Doom Flash Script", "======================="]
  let r := flash_all eo.1 ex runner
  if r.ok then
    { exitCode := 0,
      finalEnv := eo.1,
      output := header ++ r.output ++
        ["✓ All partitions flashed successfully!",
         "The ESP32 should now boot with:",
         "- Application firmware",
         "- WAD file in the wad partition",
         "- index.html in the SPIFFS storage partition"],
      invoked := r.invoked,
      checked := r.checked,
      writes := eo.2 }
  else
    { exitCode := 1,
      finalEnv := eo.1,
      output := header ++ r.output ++ ["✗ Flashing failed!"],
      invoked := r.invoked,
      checked := r.checked,
      writes := eo.2 }

/-! Concrete fixtures used to exercise the model on closed inputs. -/

/-- An environment with only `ESPPORT` set. -/
def envA : Env := fun k => if k = "ESPPORT" then some "/dev/ttyUSB0" else none

/-- An environment with nothing set. -/
def envEmpty : Env := fun _ => none

/-- `envA` plus an unrelated `HOME` entry. -/
def envB : Env :=
  fun k =>
    if k = "ESPPORT" then some "/dev/ttyUSB0"
    else if k = "HOME" then some "/root"
    else none

/-- A filesystem on which every path exists. -/
def exAll : String → Bool := fun _ => true

/-- A filesystem on which exactly `build/storage.bin` is missing. -/
def exNoStorage : String → Bool := fun p => if p = storage_bin then false else true

/-- A subprocess layer on which every command exits 0. -/
def runnerOk : Runner := fun _ => { returncode := 0, stdout := "", stderr := "" }

/-- A subprocess layer on which every command exits 2. -/
def runnerFail : Runner :=
  fun _ => { returncode := 2, stdout := "boot error", stderr := "device busy" }

/-- C1: with all five artifact files present and a non-empty resolved port,
`flash_all` invokes exactly one external command, and after the
`write_flash` action and the flash parameters it carries exactly the
(offset, file) pairs 0x1000/bootloader, 0x8000/partition table,
0x10000/application, 0x188000/WAD, 0x388000/storage, in that order. -/
theorem c1_flash_cmd_layout (env : Env) (ex : String → Bool) (runner : Runner)
    (hport : Env.get env "ESPPORT" "" ≠ "")
    (hex : ∀ pd ∈ required_files, ex pd.1 = true) :
    (flash_all env ex runner).invoked =
      [["esptool.py", "--chip", "esp32",
        "--port", Env.get env "ESPPORT" "",
        "--baud", Env.get env "ESPBAUD" "115200",
        "write_flash",
        "--flash_mode", Env.get env "ESPFLASHMODE" "dio",
        "--flash_freq", Env.get env "ESPFLASHFREQ" "40m",
        "--flash_size", Env.get env "ESPFLASHSIZE" "4MB",
        "0x1000", bootloader_bin,
        "0x8000", partition_table_bin,
        "0x10000", app_bin,
        "0x188000", wad_bin,
        "0x388000", storage_bin]] := by
  have h0 : ex bootloader_bin = true := hex (bootloader_bin, "Bootloader") (by simp [required_files])
  have h1 : ex partition_table_bin = true := hex (partition_table_bin, "Partition table") (by simp [required_files])
  have h2 : ex app_bin = true := hex (app_bin, "Application") (by simp [required_files])
  have h3 : ex storage_bin = true := hex (storage_bin, "SPIFFS storage") (by simp [required_files])
  have h4 : ex wad_bin = true := hex (wad_bin, "WAD file") (by simp [required_files])
  simp [flash_all, hport, checkRequired, required_files, build_cmd, h0, h1, h2, h3, h4]

/-- C1 witness: the theorem applied to the concrete fixtures. -/
theorem c1_witness :
    (flash_all envA exAll runnerOk).invoked =
      [["esptool.py", "--chip", "esp32",
        "--port", Env.get envA "ESPPORT" "",
        "--baud", Env.get envA "ESPBAUD" "115200",
        "write_flash",
        "--flash_mode", Env.get envA "ESPFLASHMODE" "dio",
        "--flash_freq", Env.get envA "ESPFLASHFREQ" "40m",
        "--flash_size", Env.get envA "ESPFLASHSIZE" "4MB",
        "0x1000", bootloader_bin,
        "0x8000", partition_table_bin,
        "0x10000", app_bin,
        "0x188000", wad_bin,
        "0x388000", storage_bin]] :=
  c1_flash_cmd_layout envA exAll runnerOk (by decide) (by decide)

/-- C2: when the port resolved after any `--port` override is empty, the run
exits with status 1, checks no artifact file, invokes no external command,
and reports the missing-port configuration error. -/
theorem c2_missing_port (env : Env) (argPort : Option String) (ex : String → Bool)
    (runner : Runner)
    (hport : Env.get (applyPortOverride env argPort).1 "ESPPORT" "" = "") :
    (main env argPort ex runner).exitCode = 1 ∧
    (main env argPort ex runner).checked = [] ∧
    (main env argPort ex runner).invoked = [] ∧
    "Error: ESPPORT environment variable not set!" ∈ (main env argPort ex runner).output := by
  simp [main, flash_all, hport]

/-- C2 witness: the theorem applied to the empty environment with no flag. -/
theorem c2_witness :
    (main envEmpty none exAll runnerOk).exitCode = 1 ∧
    (main envEmpty none exAll runnerOk).checked = [] ∧
    (main envEmpty none exAll runnerOk).invoked = [] ∧
    "Error: ESPPORT environment variable not set!" ∈ (main envEmpty none exAll runnerOk).output :=
  c2_missing_port envEmpty none exAll runnerOk (by decide)

/-- The final environment of a run is the environment after the port
override, on every branch. -/
theorem main_finalEnv (env : Env) (argPort : Option String) (ex : String → Bool)
    (runner : Runner) :
    (main env argPort ex runner).finalEnv = (applyPortOverride env argPort).1 := by
  simp only [main]; split <;> rfl

/-- The write trace of a run is the write trace of the port override, on
every branch. -/
theorem main_writes (env : Env) (argPort : Option String) (ex : String → Bool)
    (runner : Runner) :
    (main env argPort ex runner).writes = (applyPortOverride env argPort).2 := by
  simp only [main]; split <;> rfl

/-- The commands a run spawns are exactly those `flash_all` spawns. -/
theorem main_invoked (env : Env) (argPort : Option String) (ex : String → Bool)
    (runner : Runner) :
    (main env argPort ex runner).invoked =
      (flash_all (applyPortOverride env argPort).1 ex runner).invoked := by
  simp only [main]; split <;> rfl

/-- The existence checks a run performs are exactly those of `flash_all`. -/
theorem main_checked (env : Env) (argPort : Option String) (ex : String → Bool)
    (runner : Runner) :
    (main env argPort ex runner).checked =
      (flash_all (applyPortOverride env argPort).1 ex runner).checked := by
  simp only [main]; split <;> rfl

/-- The exit status of a run is 0 when `flash_all` succeeds and 1 otherwise. -/
theorem main_exitCode (env : Env) (argPort : Option String) (ex : String → Bool)
    (runner : Runner) :
    (main env argPort ex runner).exitCode =
      if (flash_all (applyPortOverride env argPort).1 ex runner).ok then 0 else 1 := by
  simp only [main]; split <;> simp_all

/-- C3: with a non-empty resolved port, if the artifact at position `j` of
the fixed list is the first one missing, the run exits with status 1,
invokes no external command, checks exactly the first `j + 1` paths of the
list (so no later entry), and reports the label and path of that artifact with
the remediation to run the build first. -/
theorem c3_first_missing_artifact (env : Env) (argPort : Option String)
    (ex : String → Bool) (runner : Runner) (j : Nat) (hj : j < 5)
    (hport : Env.get (applyPortOverride env argPort).1 "ESPPORT" "" ≠ "")
    (hbefore : ∀ i, i < j → ex (reqPath i) = true)
    (hmiss : ex (reqPath j) = false) :
    (main env argPort ex runner).exitCode = 1 ∧
    (main env argPort ex runner).invoked = [] ∧
    (main env argPort ex runner).checked = (required_files.map Prod.fst).take (j + 1) ∧
    ("Error: " ++ reqLabel j ++ " file not found: " ++ reqPath j) ∈
      (main env argPort ex runner).output ∧
    "Please run \x27idf.py build\x27 first" ∈ (main env argPort ex runner).output := by
  interval_cases j
  · simp only [reqPath, reqLabel, required_files, List.getD] at hmiss ⊢
    simp at hmiss ⊢
    simp [main, flash_all, hport, checkRequired, required_files, hmiss]
  · have h0 := hbefore 0 (by norm_num)
    simp only [reqPath, reqLabel, required_files, List.getD] at h0 hmiss ⊢
    simp at h0 hmiss ⊢
    simp [main, flash_all, hport, checkRequired, required_files, h0, hmiss]
  · have h0 := hbefore 0 (by norm_num)
    have h1 := hbefore 1 (by norm_num)
    simp only [reqPath, reqLabel, required_files, List.getD] at h0 h1 hmiss ⊢
    simp at h0 h1 hmiss ⊢
    simp [main, flash_all, hport, checkRequired, required_files, h0, h1, hmiss]
  · have h0 := hbefore 0 (by norm_num)
    have h1 := hbefore 1 (by norm_num)
    have h2 := hbefore 2 (by norm_num)
    simp only [reqPath, reqLabel, required_files, List.getD] at h0 h1 h2 hmiss ⊢
    simp at h0 h1 h2 hmiss ⊢
    simp [main, flash_all, hport, checkRequired, required_files, h0, h1, h2, hmiss]
  · have h0 := hbefore 0 (by norm_num)
    have h1 := hbefore 1 (by norm_num)
    have h2 := hbefore 2 (by norm_num)
    have h3 := hbefore 3 (by norm_num)
    simp only [reqPath, reqLabel, required_files, List.getD] at h0 h1 h2 h3 hmiss ⊢
    simp at h0 h1 h2 h3 hmiss ⊢
    simp [main, flash_all, hport, checkRequired, required_files, h0, h1, h2, h3, hmiss]

/-- C3 witness: `build/storage.bin` (position 3) missing, everything before
it present. -/
theorem c3_witness :
    (main envA none exNoStorage runnerOk).exitCode = 1 ∧
    (main envA none exNoStorage runnerOk).invoked = [] ∧
    (main envA none exNoStorage runnerOk).checked =
      (required_files.map Prod.fst).take (3 + 1) ∧
    ("Error: " ++ reqLabel 3 ++ " file not found: " ++ reqPath 3) ∈
      (main envA none exNoStorage runnerOk).output ∧
    "Please run \x27idf.py build\x27 first" ∈ (main envA none exNoStorage runnerOk).output :=
  c3_first_missing_artifact envA none exNoStorage runnerOk 3 (by norm_num)
    (by decide) (by decide) (by decide)

/-- C4: a non-empty `--port` argument is written back into the environment
as `ESPPORT`, and the constructed external command uses the CLI-supplied
port rather than any prior `ESPPORT` value. -/
theorem c4_port_override (env : Env) (p : String) (ex : String → Bool)
    (runner : Runner) (hp : p ≠ "")
    (hex : ∀ pd ∈ required_files, ex pd.1 = true) :
    (main env (some p) ex runner).finalEnv "ESPPORT" = some p ∧
    (main env (some p) ex runner).writes = [("ESPPORT", p)] ∧
    (main env (some p) ex runner).invoked =
      [build_cmd p (Env.get env "ESPBAUD" "115200") (Env.get env "ESPFLASHMODE" "dio")
        (Env.get env "ESPFLASHFREQ" "40m") (Env.get env "ESPFLASHSIZE" "4MB")] := by
  have h0 : ex bootloader_bin = true := hex (bootloader_bin, "Bootloader") (by simp [required_files])
  have h1 : ex partition_table_bin = true := hex (partition_table_bin, "Partition table") (by simp [required_files])
  have h2 : ex app_bin = true := hex (app_bin, "Application") (by simp [required_files])
  have h3 : ex storage_bin = true := hex (storage_bin, "SPIFFS storage") (by simp [required_files])
  have h4 : ex wad_bin = true := hex (wad_bin, "WAD file") (by simp [required_files])
  refine ⟨?_, ?_, ?_⟩
  · rw [main_finalEnv]
    simp [applyPortOverride, hp, Env.set]
  · rw [main_writes]
    simp [applyPortOverride, hp]
  · rw [main_invoked]
    simp [applyPortOverride, hp, flash_all, Env.get, Env.set, hp,
      checkRequired, required_files, h0, h1, h2, h3, h4]

/-- C4 witness: `--port /dev/ttyUSB1` over an environment whose `ESPPORT`
is `/dev/ttyUSB0`. -/
theorem c4_witness :
    (main envA (some "/dev/ttyUSB1") exAll runnerOk).finalEnv "ESPPORT" = some "/dev/ttyUSB1" ∧
    (main envA (some "/dev/ttyUSB1") exAll runnerOk).writes = [("ESPPORT", "/dev/ttyUSB1")] ∧
    (main envA (some "/dev/ttyUSB1") exAll runnerOk).invoked =
      [build_cmd "/dev/ttyUSB1" (Env.get envA "ESPBAUD" "115200")
        (Env.get envA "ESPFLASHMODE" "dio") (Env.get envA "ESPFLASHFREQ" "40m")
        (Env.get envA "ESPFLASHSIZE" "4MB")] :=
  c4_port_override envA "/dev/ttyUSB1" exAll runnerOk (by decide) (by decide)

/-- The command line `flash_all` builds once validation passes: `build_cmd`
applied to the five configuration values resolved from `env`. -/
def resolvedCmd (env : Env) : List String :=
  build_cmd (Env.get env "ESPPORT" "") (Env.get env "ESPBAUD" "115200")
    (Env.get env "ESPFLASHMODE" "dio") (Env.get env "ESPFLASHFREQ" "40m")
    (Env.get env "ESPFLASHSIZE" "4MB")

/-- C5: when validation passes and the external flashing command exits with
a non-zero status, the run exits with status 1, and the failure report
contains the captured stdout and stderr of that command. -/
theorem c5_tool_failure (env : Env) (argPort : Option String) (ex : String → Bool)
    (runner : Runner)
    (hport : Env.get (applyPortOverride env argPort).1 "ESPPORT" "" ≠ "")
    (hex : ∀ pd ∈ required_files, ex pd.1 = true)
    (hfail : (runner (resolvedCmd (applyPortOverride env argPort).1)).returncode ≠ 0) :
    (main env argPort ex runner).exitCode = 1 ∧
    ("stdout: " ++ (runner (resolvedCmd (applyPortOverride env argPort).1)).stdout) ∈
      (main env argPort ex runner).output ∧
    ("stderr: " ++ (runner (resolvedCmd (applyPortOverride env argPort).1)).stderr) ∈
      (main env argPort ex runner).output ∧
    "✗ Flashing failed!" ∈ (main env argPort ex runner).output := by
  have h0 : ex bootloader_bin = true := hex (bootloader_bin, "Bootloader") (by simp [required_files])
  have h1 : ex partition_table_bin = true := hex (partition_table_bin, "Partition table") (by simp [required_files])
  have h2 : ex app_bin = true := hex (app_bin, "Application") (by simp [required_files])
  have h3 : ex storage_bin = true := hex (storage_bin, "SPIFFS storage") (by simp [required_files])
  have h4 : ex wad_bin = true := hex (wad_bin, "WAD file") (by simp [required_files])
  simp only [resolvedCmd] at hfail ⊢
  simp [main, flash_all, hport, checkRequired, required_files, h0, h1, h2, h3, h4,
    run_command, hfail]

/-- C5 witness: all artifacts present, valid port, tool exits 2. -/
theorem c5_witness :
    (main envA none exAll runnerFail).exitCode = 1 ∧
    ("stdout: " ++ (runnerFail (resolvedCmd (applyPortOverride envA none).1)).stdout) ∈
      (main envA none exAll runnerFail).output ∧
    ("stderr: " ++ (runnerFail (resolvedCmd (applyPortOverride envA none).1)).stderr) ∈
      (main envA none exAll runnerFail).output ∧
    "✗ Flashing failed!" ∈ (main envA none exAll runnerFail).output :=
  c5_tool_failure envA none exAll runnerFail (by decide) (by decide) (by decide)

/-- C6: when validation passes and the external flashing command exits with
status zero, the run exits with status 0 and the success confirmation lists
the flashed payloads: application firmware, WAD file, and index.html in the
SPIFFS storage partition. -/
theorem c6_success (env : Env) (argPort : Option String) (ex : String → Bool)
    (runner : Runner)
    (hport : Env.get (applyPortOverride env argPort).1 "ESPPORT" "" ≠ "")
    (hex : ∀ pd ∈ required_files, ex pd.1 = true)
    (hok : (runner (resolvedCmd (applyPortOverride env argPort).1)).returncode = 0) :
    (main env argPort ex runner).exitCode = 0 ∧
    "✓ All partitions flashed successfully!" ∈ (main env argPort ex runner).output ∧
    "- Application firmware" ∈ (main env argPort ex runner).output ∧
    "- WAD file in the wad partition" ∈ (main env argPort ex runner).output ∧
    "- index.html in the SPIFFS storage partition" ∈ (main env argPort ex runner).output := by
  have h0 : ex bootloader_bin = true := hex (bootloader_bin, "Bootloader") (by simp [required_files])
  have h1 : ex partition_table_bin = true := hex (partition_table_bin, "Partition table") (by simp [required_files])
  have h2 : ex app_bin = true := hex (app_bin, "Application") (by simp [required_files])
  have h3 : ex storage_bin = true := hex (storage_bin, "SPIFFS storage") (by simp [required_files])
  have h4 : ex wad_bin = true := hex (wad_bin, "WAD file") (by simp [required_files])
  simp only [resolvedCmd] at hok
  simp [main, flash_all, hport, checkRequired, required_files, h0, h1, h2, h3, h4,
    run_command, hok]

/-- C6 witness: all artifacts present, valid port, tool exits 0. -/
theorem c6_witness :
    (main envA none exAll runnerOk).exitCode = 0 ∧
    "✓ All partitions flashed successfully!" ∈ (main envA none exAll runnerOk).output ∧
    "- Application firmware" ∈ (main envA none exAll runnerOk).output ∧
    "- WAD file in the wad partition" ∈ (main envA none exAll runnerOk).output ∧
    "- index.html in the SPIFFS storage partition" ∈ (main envA none exAll runnerOk).output :=
  c6_success envA none exAll runnerOk (by decide) (by decide) (by decide)

/-- C7: every run spawns at most one external command, and the missing-port
and missing-artifact failures spawn none at all, so no failure is ever
followed by a further subprocess invocation. -/
theorem c7_at_most_one_invocation (env : Env) (argPort : Option String)
    (ex : String → Bool) (runner : Runner) :
    (main env argPort ex runner).invoked.length ≤ 1 ∧
    (Env.get (applyPortOverride env argPort).1 "ESPPORT" "" = "" →
      (main env argPort ex runner).invoked = []) ∧
    ((checkRequired ex required_files).2 ≠ none →
      (main env argPort ex runner).invoked = []) := by
  rw [main_invoked]
  by_cases hp : Env.get (applyPortOverride env argPort).1 "ESPPORT" "" = ""
  · simp [flash_all, hp]
  · rcases hc : (checkRequired ex required_files).2 with _ | ⟨fp, descr⟩
    · simp [flash_all, hp, hc]
    · simp [flash_all, hp, hc]

/-- C7 witness: the theorem applied at a concrete run. -/
theorem c7_witness :
    (main envA none exAll runnerOk).invoked.length ≤ 1 ∧
    (Env.get (applyPortOverride envA none).1 "ESPPORT" "" = "" →
      (main envA none exAll runnerOk).invoked = []) ∧
    ((checkRequired exAll required_files).2 ≠ none →
      (main envA none exAll runnerOk).invoked = []) :=
  c7_at_most_one_invocation envA none exAll runnerOk

/-- C8: an empty-string `--port` argument is not applied: the override
leaves the environment untouched and writes nothing, the run is identical
to a run without the flag, and if `ESPPORT` is also empty or unset the run
fails with the missing-port error, exit status 1, with no invocation. -/
theorem c8_empty_port_flag (env : Env) (ex : String → Bool) (runner : Runner) :
    applyPortOverride env (some "") = (env, []) ∧
    main env (some "") ex runner = main env none ex runner ∧
    (Env.get env "ESPPORT" "" = "" →
      (main env (some "") ex runner).exitCode = 1 ∧
      (main env (some "") ex runner).invoked = [] ∧
      "Error: ESPPORT environment variable not set!" ∈
        (main env (some "") ex runner).output) := by
  have hapo : applyPortOverride env (some "") = (env, []) := by
    simp [applyPortOverride]
  have hapo2 : applyPortOverride env none = (env, []) := rfl
  refine ⟨hapo, ?_, ?_⟩
  · simp only [main, hapo, hapo2]
  · intro hp
    have hp' : Env.get (applyPortOverride env (some "")).1 "ESPPORT" "" = "" := by
      rw [hapo]; exact hp
    simp [main, flash_all, hp']

/-- C8 witness: the theorem applied to the empty environment. -/
theorem c8_witness :
    applyPortOverride envEmpty (some "") = (envEmpty, []) ∧
    main envEmpty (some "") exAll runnerOk = main envEmpty none exAll runnerOk ∧
    (Env.get envEmpty "ESPPORT" "" = "" →
      (main envEmpty (some "") exAll runnerOk).exitCode = 1 ∧
      (main envEmpty (some "") exAll runnerOk).invoked = [] ∧
      "Error: ESPPORT environment variable not set!" ∈
        (main envEmpty (some "") exAll runnerOk).output) :=
  c8_empty_port_flag envEmpty exAll runnerOk

/-- C9: the run writes no environment variable other than `ESPPORT`; the
write trace has at most one entry, every entry targets `ESPPORT`, and it is
empty whenever no non-empty `--port` argument was given. -/
theorem c9_env_frame (env : Env) (argPort : Option String) (ex : String → Bool)
    (runner : Runner) (k : String) (hk : k ≠ "ESPPORT") :
    (main env argPort ex runner).finalEnv k = env k ∧
    (main env argPort ex runner).writes.length ≤ 1 ∧
    (main env argPort ex runner).writes.all (fun w => w.1 == "ESPPORT") = true ∧
    ((argPort = none ∨ argPort = some "") → (main env argPort ex runner).writes = []) := by
  rw [main_finalEnv, main_writes]
  rcases argPort with _ | p
  · simp [applyPortOverride]
  · by_cases hp : p = ""
    · subst hp; simp [applyPortOverride]
    · simp [applyPortOverride, hp, Env.set, hk]

/-- C9 witness: a run with `--port /dev/ttyUSB1`, observed at the unrelated
variable `HOME`. -/
theorem c9_witness :
    (main envA (some "/dev/ttyUSB1") exAll runnerOk).finalEnv "HOME" = envA "HOME" ∧
    (main envA (some "/dev/ttyUSB1") exAll runnerOk).writes.length ≤ 1 ∧
    (main envA (some "/dev/ttyUSB1") exAll runnerOk).writes.all
      (fun w => w.1 == "ESPPORT") = true ∧
    ((some "/dev/ttyUSB1" = none ∨ some "/dev/ttyUSB1" = some "") →
      (main envA (some "/dev/ttyUSB1") exAll runnerOk).writes = []) :=
  c9_env_frame envA (some "/dev/ttyUSB1") exAll runnerOk "HOME" (by decide)

/-- `flash_all` reads the environment only through the five configuration
variables: environments agreeing on them produce identical runs. -/
theorem flash_all_congr (env1 env2 : Env) (ex : String → Bool) (runner : Runner)
    (h1 : Env.get env1 "ESPPORT" "" = Env.get env2 "ESPPORT" "")
    (h2 : Env.get env1 "ESPBAUD" "115200" = Env.get env2 "ESPBAUD" "115200")
    (h3 : Env.get env1 "ESPFLASHMODE" "dio" = Env.get env2 "ESPFLASHMODE" "dio")
    (h4 : Env.get env1 "ESPFLASHFREQ" "40m" = Env.get env2 "ESPFLASHFREQ" "40m")
    (h5 : Env.get env1 "ESPFLASHSIZE" "4MB" = Env.get env2 "ESPFLASHSIZE" "4MB") :
    flash_all env1 ex runner = flash_all env2 ex runner := by
  simp only [flash_all]
  rw [h1, h2, h3, h4, h5]

/-- The port override preserves agreement of resolved configuration values
between two environments. -/
theorem apo_get (env1 env2 : Env) (argPort : Option String) (key dflt : String)
    (h : Env.get env1 key dflt = Env.get env2 key dflt) :
    Env.get (applyPortOverride env1 argPort).1 key dflt =
      Env.get (applyPortOverride env2 argPort).1 key dflt := by
  rcases argPort with _ | p
  · exact h
  · by_cases hp : p = ""
    · simpa [applyPortOverride, hp] using h
    · by_cases hk : key = "ESPPORT"
      · simp [applyPortOverride, hp, Env.get, Env.set, hk]
      · simpa [applyPortOverride, hp, Env.get, Env.set, hk] using h

/-- C10: the run is a deterministic function of the five configuration
values: environments agreeing on the resolved port, baud, flash mode,
frequency and size — with the same CLI argument, filesystem, and subprocess
behavior — produce the same `flash_all` outcome, the same spawned command
lists, the same exit status, and the same existence checks. -/
theorem c10_config_determinism (env1 env2 : Env) (argPort : Option String)
    (ex : String → Bool) (runner : Runner)
    (h1 : Env.get env1 "ESPPORT" "" = Env.get env2 "ESPPORT" "")
    (h2 : Env.get env1 "ESPBAUD" "115200" = Env.get env2 "ESPBAUD" "115200")
    (h3 : Env.get env1 "ESPFLASHMODE" "dio" = Env.get env2 "ESPFLASHMODE" "dio")
    (h4 : Env.get env1 "ESPFLASHFREQ" "40m" = Env.get env2 "ESPFLASHFREQ" "40m")
    (h5 : Env.get env1 "ESPFLASHSIZE" "4MB" = Env.get env2 "ESPFLASHSIZE" "4MB") :
    flash_all env1 ex runner = flash_all env2 ex runner ∧
    (main env1 argPort ex runner).invoked = (main env2 argPort ex runner).invoked ∧
    (main env1 argPort ex runner).exitCode = (main env2 argPort ex runner).exitCode ∧
    (main env1 argPort ex runner).checked = (main env2 argPort ex runner).checked := by
  have hflash : flash_all (applyPortOverride env1 argPort).1 ex runner =
      flash_all (applyPortOverride env2 argPort).1 ex runner :=
    flash_all_congr _ _ ex runner
      (apo_get env1 env2 argPort _ _ h1) (apo_get env1 env2 argPort _ _ h2)
      (apo_get env1 env2 argPort _ _ h3) (apo_get env1 env2 argPort _ _ h4)
      (apo_get env1 env2 argPort _ _ h5)
  refine ⟨flash_all_congr env1 env2 ex runner h1 h2 h3 h4 h5, ?_, ?_, ?_⟩
  · rw [main_invoked, main_invoked, hflash]
  · rw [main_exitCode, main_exitCode, hflash]
  · rw [main_checked, main_checked, hflash]

/-- C10 witness: `envB` adds an unrelated `HOME` entry to `envA`; the runs
coincide. -/
theorem c10_witness :
    flash_all envA exAll runnerOk = flash_all envB exAll runnerOk ∧
    (main envA none exAll runnerOk).invoked = (main envB none exAll runnerOk).invoked ∧
    (main envA none exAll runnerOk).exitCode = (main envB none exAll runnerOk).exitCode ∧
    (main envA none exAll runnerOk).checked = (main envB none exAll runnerOk).checked :=
  c10_config_determinism envA envB none exAll runnerOk
    (by decide) (by decide) (by decide) (by decide) (by decide)

end FlashAll
